import Mathlib

/-!
Shallow embedding of the IdeaGenie client core (React `App` component, its
api client `request` helper, and the client download action), together with
theorems settling the frozen claims about it.

The JavaScript source is translated as follows:
* JS strings become `String`, JS numbers used as counts become `Nat`.
* `undefined`/missing optional values become `Option`; JS `a || b` on strings
  (which skips falsy values, i.e. `undefined` and `""`) becomes `jsOrStr` /
  `firstTruthyS`.
* Each `async` handler is split at its `await` points into a `...Start` step
  (everything before the request is issued), a `...Resolve` step (the `then`
  continuation applied to a response value) and a `...Reject` step (the
  `catch` continuation), all pure functions on an explicit `AppState`.
* In-flight requests are tracked explicitly in the state (`pendingGens`,
  `pendingSaves`, ...) so that temporal claims about overlapping calls can be
  stated; a response event consumes one pending entry.
-/

namespace IdeaGenie

/-- JS truthiness test for a string: only `""` is falsy. -/
def strTruthy (s : String) : Bool := !(s == "")

/-- JS `a || b` where `a` is an optional string (`none` = `undefined`) and a
present-but-empty string is still falsy. -/
def jsOrStr (a : Option String) (b : String) : String :=
  match a with
  | some s => if s == "" then b else s
  | none => b

/-- First truthy value of a list of optional strings, as produced by a JS
`x1 || x2 || ... ` chain ending in a falsy default. -/
def firstTruthyS : List (Option String) → Option String
  | [] => none
  | a :: rest =>
    match a with
    | some s => if s == "" then firstTruthyS rest else some s
    | none => firstTruthyS rest

/-- Coerce an optional string to `some` only when it is JS-truthy; models a
`if (!x)` guard on an optional string. -/
def truthyOpt (a : Option String) : Option String :=
  match a with
  | some s => if s == "" then none else some s
  | none => none

/-- Whitespace test used by JS `String.prototype.trim`. -/
def isWS (c : Char) : Bool := c.isWhitespace

/-- Remove leading and trailing whitespace from a character list. -/
def trimChars (l : List Char) : List Char :=
  ((l.dropWhile isWS).reverse.dropWhile isWS).reverse

/-- JS `s.trim()`. -/
def jsTrim (s : String) : String := String.mk (trimChars s.toList)

/-- JS `s.slice(-n)`: the last `n` characters (the whole string when shorter). -/
def lastChars (n : Nat) (s : String) : String :=
  String.mk (s.toList.drop (s.toList.length - n))

/-! ## Remote response shapes

The remote service's responses are duck-typed; each one is modelled as a
variant type covering the shapes the code probes for.  Fields that the code
reads are `Option` (absent = `undefined`); fields holding arrays are modelled
as lists (note that in JS any array, even `[]`, is truthy). -/

/-- One element of a generate response list: a string, an object carrying
optional `text` / `idea` string fields, or anything else (null, numbers, ...)
whose `?.text` / `?.idea` probes yield `undefined`. -/
inductive GenItem where
  | str (s : String)
  | obj (text idea : Option String)
  | nul
deriving DecidableEq, Repr

/-- A generate response: a bare array, an object with optional `ideas` /
`items` array fields, or any other value. -/
inductive GenResult where
  | arr (l : List GenItem)
  | obj (ideas items : Option (List GenItem))
  | other
deriving DecidableEq, Repr

/-- A save response: the code probes `data?.id || data?.idea?.id ||
data?.idea_id || data?.ideaId` in that order. -/
structure SaveResp where
  id : Option String := none
  ideaDotId : Option String := none
  idea_id : Option String := none
  ideaId : Option String := none
deriving DecidableEq, Repr

/-- A share response: the code probes `data?.url || data?.share_url ||
data?.shareUrl || data?.link`. -/
structure ShareResp where
  url : Option String := none
  share_url : Option String := none
  shareUrl : Option String := none
  link : Option String := none
deriving DecidableEq, Repr

/-- A saved-ideas listing response: `Array.isArray(data) ? data :
data?.items || []`.  The individual saved items are opaque payloads to every
claim, so they are carried as plain strings. -/
inductive ListResp where
  | arr (l : List String)
  | obj (items : Option (List String))
  | other
deriving DecidableEq, Repr

/-- Items of a saved-ideas listing extracted exactly as the code does. -/
def listItems : ListResp → List String
  | .arr l => l
  | .obj items => items.getD []
  | .other => []

/-! ## Response normalizer (onGenerate lines 122-132) -/

/-- `typeof item === "string" ? item : item?.text || item?.idea || ""`. -/
def itemText : GenItem → String
  | .str s => s
  | .obj t i => jsOrStr t (jsOrStr i "")
  | .nul => ""

/-- `(Array.isArray(result) && result) || result?.ideas || result?.items || []`.
Note that a present array field is always truthy in JS, even when empty, so
presence (not non-emptiness) decides the priority. -/
def pickList : GenResult → List GenItem
  | .arr l => l
  | .obj ideas items => (ideas.orElse (fun _ => items)).getD []
  | .other => []

/-- `Math.max(1, Number(count) || 6)`: the slice bound used for truncation.
`count` is a number in the state, so `Number(count)` is the identity and
`|| 6` replaces a zero (or NaN) count by 6. -/
def sliceBound (count : Nat) : Nat := max 1 (if count = 0 then 6 else count)

/-- The normalized list of idea texts produced by `onGenerate` from a
response `r` with the captured `count`: map each item to its text, drop the
falsy (empty) ones, truncate. -/
def normTexts (r : GenResult) (count : Nat) : List String :=
  (((pickList r).map itemText).filter (fun t => t ≠ "")).take (sliceBound count)

/-- Modelled from the spec: the selection policy as the spec words it —
"first non-empty matching field wins, in the fixed priority order
\x7bdirect array, ideas, items\x7d" (an empty present field is skipped). -/
def pickListSpec : GenResult → List GenItem
  | .arr l => l
  | .obj ideas items =>
    match ideas with
    | some l => if l ≠ [] then l else (items.getD [])
    | none => items.getD []
  | .other => []

/-- Modelled from the spec: the normalizer as the claim words it, truncating
to `max 1 count` and selecting via `pickListSpec`. -/
def normTextsSpec (r : GenResult) (count : Nat) : List String :=
  (((pickListSpec r).map itemText).filter (fun t => t ≠ "")).take (max 1 count)

/-! ## Data model (App component state, lines 22-45) -/

/-- The status strings `"idle" | "loading" | "error" | "success"` used for
both `generationStatus` and `savedStatus`. -/
inductive Status where
  | idle
  | loading
  | error
  | success
deriving DecidableEq, Repr

/-- One generated idea record: `\x7bid, text, savedId?, savedAt?\x7d`. -/
structure IdeaRec where
  id : String
  text : String
  savedId : Option String := none
  savedAt : Option String := none
deriving DecidableEq, Repr

/-- Per-idea busy flags `\x7b saving?, sharing?, exporting? \x7d`; a missing
key in the JS map reads as an object with all flags absent, i.e. all false. -/
structure BusyFlags where
  saving : Bool := false
  sharing : Bool := false
  exporting : Bool := false
deriving DecidableEq, Repr

/-- A transient notice `\x7b type, message \x7d` shown by `showNotice` (the
auto-dismiss timer is real time and is not modelled). -/
structure Notice where
  kind : String
  message : String
deriving DecidableEq, Repr

/-- Payload of a client-side `downloadTextFile` call. -/
structure DLFile where
  filename : String
  content : String
  mimeType : String
deriving DecidableEq, Repr

/-- The `\x7btopic, tone, count\x7d` payload captured by a generate call at
the moment it is issued (the resolve continuation closes over these values,
not over the live state). -/
structure GenReq where
  topic : String
  tone : String
  count : Nat
deriving DecidableEq, Repr

/-- The `\x7btopic, idea\x7d` payload of a save call. -/
structure SaveReq where
  topic : String
  idea : String
deriving DecidableEq, Repr

/-- The full component state, plus explicit books of in-flight requests so
that overlapping asynchronous calls can be reasoned about.  Each pending
entry records the values the corresponding continuation closed over. -/
structure AppState where
  topic : String
  tone : String
  count : Nat
  ideas : List IdeaRec
  generationStatus : Status
  generationError : String
  savedIdeas : List String
  savedStatus : Status
  savedError : String
  busyByIdeaId : String → BusyFlags
  errorByIdeaId : String → String
  notice : Option Notice
  nextLocalId : Nat
  pendingGens : List GenReq
  pendingSaves : List (IdeaRec × SaveReq)
  pendingRefresh : List String
  pendingShares : List (IdeaRec × String)
  pendingExports : List (IdeaRec × String)
  pendingLoad : Bool

/-- Point update of a string-keyed map, as a JS object spread
`\x7b...prev, [id]: v\x7d` reads back. -/
def updMap {α : Type} (m : String → α) (id : String) (v : α) : String → α :=
  fun i => if i = id then v else m i

/-- `setIdeaBusy(id, \x7bsaving\x7d)`: merge the `saving` flag into the
record's busy flags. -/
def setSaving (m : String → BusyFlags) (id : String) (v : Bool) : String → BusyFlags :=
  updMap m id { m id with saving := v }

/-- `setIdeaBusy(id, \x7bsharing\x7d)`. -/
def setSharing (m : String → BusyFlags) (id : String) (v : Bool) : String → BusyFlags :=
  updMap m id { m id with sharing := v }

/-- `setIdeaBusy(id, \x7bexporting\x7d)`. -/
def setExporting (m : String → BusyFlags) (id : String) (v : Bool) : String → BusyFlags :=
  updMap m id { m id with exporting := v }

/-- `makeLocalId`: the source uses `Date.now()` plus randomness only to get
distinct opaque strings; the model mints them from a counter carried in the
state, preserving distinctness. -/
def makeLocalId (n : Nat) : String := "local_" ++ toString n

/-- `list.map((text) => (\x7b id: makeLocalId(), text \x7d))`: mint fresh
records for the normalized texts, consuming ids from the counter. -/
def mintIdeas : List String → Nat → List IdeaRec
  | [], _ => []
  | t :: ts, n => { id := makeLocalId n, text := t } :: mintIdeas ts (n + 1)

/-- Initial state: the `useState` defaults, immediately after the mount
effect has begun the initial saved-ideas load (`savedStatus` set to loading,
the listing request in flight). -/
def initState : AppState where
  topic := ""
  tone := "Creative"
  count := 6
  ideas := []
  generationStatus := .idle
  generationError := ""
  savedIdeas := []
  savedStatus := .loading
  savedError := ""
  busyByIdeaId := fun _ => {}
  errorByIdeaId := fun _ => ""
  notice := none
  nextLocalId := 0
  pendingGens := []
  pendingSaves := []
  pendingRefresh := []
  pendingShares := []
  pendingExports := []
  pendingLoad := true

/-- Remove the first occurrence of an element (the settled promise) from a
pending list. -/
def eraseOnce {α : Type} [DecidableEq α] : List α → α → List α
  | [], _ => []
  | x :: xs, a => if x = a then xs else x :: eraseOnce xs a

/-! ## onGenerate (lines 102-141) -/

/-- The part of `onGenerate` before `await generateIdeas(...)`: validate the
trimmed topic, set loading, clear the error and the collection, and issue the
request (returning it; `none` when validation failed and no call was made). -/
def onGenerateStart (s : AppState) : AppState × Option GenReq :=
  let trimmed := jsTrim s.topic
  if trimmed.length < 3 then
    ({ s with generationStatus := .error,
              generationError := "Please enter at least 3 characters." }, none)
  else
    let req : GenReq := { topic := trimmed, tone := s.tone, count := s.count }
    ({ s with generationStatus := .loading, generationError := "", ideas := [],
              pendingGens := s.pendingGens ++ [req] }, some req)

/-- The `then` continuation of `onGenerate`, applied when the response of the
pending request `req` arrives: normalize (using the captured `count`), mint
fresh records, replace the collection, set success.  The code applies this
unconditionally to whichever response arrives — there is no staleness check. -/
def onGenerateResolve (s : AppState) (resp : GenResult) (req : GenReq) : AppState :=
  let texts := normTexts resp req.count
  { s with ideas := mintIdeas texts s.nextLocalId,
           nextLocalId := s.nextLocalId + texts.length,
           generationStatus := .success,
           notice := some { kind := "success", message := "Ideas generated." },
           pendingGens := eraseOnce s.pendingGens req }

/-- The `catch` continuation of `onGenerate` (`emsg` is the thrown error's
optional `message`, falsy values falling back to the default). -/
def onGenerateReject (s : AppState) (req : GenReq) (emsg : Option String) : AppState :=
  { s with generationStatus := .error,
           generationError := jsOrStr emsg "Failed to generate ideas.",
           pendingGens := eraseOnce s.pendingGens req }

/-! ## onSave (lines 143-176) and the saved-view refresh -/

/-- The part of `onSave` before `await saveIdea(...)`: clear the record's
error, set its saving flag, and issue the request with the live trimmed topic
and the record's text. -/
def onSaveStart (s : AppState) (idea : IdeaRec) : AppState × SaveReq :=
  let req : SaveReq := { topic := jsTrim s.topic, idea := idea.text }
  ({ s with errorByIdeaId := updMap s.errorByIdeaId idea.id "",
            busyByIdeaId := setSaving s.busyByIdeaId idea.id true,
            pendingSaves := s.pendingSaves ++ [(idea, req)] }, req)

/-- `data?.id || data?.idea?.id || data?.idea_id || data?.ideaId`. -/
def savedIdOf (d : SaveResp) : Option String :=
  firstTruthyS [d.id, d.ideaDotId, d.idea_id, d.ideaId]

/-- The mapper `(it) => it.id === idea.id ? \x7b ...it, savedId: savedId ||
it.savedId || it.id, savedAt: ... \x7d : it` applied to each record on save
success (`now` is the `new Date().toISOString()` value). -/
def applySaveToRec (d : SaveResp) (now : String) (idea : IdeaRec) (it : IdeaRec) : IdeaRec :=
  if it.id = idea.id then
    { it with savedId := some (jsOrStr (savedIdOf d) (jsOrStr it.savedId it.id)),
              savedAt := some now }
  else it

/-- The success continuation of `onSave`: notice, record transition, and the
best-effort saved-list refresh request is issued (the `finally` that clears
the saving flag runs only after that inner await settles). -/
def onSaveResolve (s : AppState) (idea : IdeaRec) (d : SaveResp) (now : String)
    (req : SaveReq) : AppState :=
  { s with notice := some { kind := "success", message := "Saved." },
           ideas := s.ideas.map (applySaveToRec d now idea),
           pendingSaves := eraseOnce s.pendingSaves (idea, req),
           pendingRefresh := s.pendingRefresh ++ [idea.id] }

/-- The failure continuation of `onSave` plus its `finally`: per-record error,
error notice, saving flag cleared. -/
def onSaveReject (s : AppState) (idea : IdeaRec) (req : SaveReq)
    (emsg : Option String) : AppState :=
  { s with errorByIdeaId := updMap s.errorByIdeaId idea.id (jsOrStr emsg "Failed to save."),
           notice := some { kind := "error", message := "Save failed." },
           pendingSaves := eraseOnce s.pendingSaves (idea, req),
           busyByIdeaId := setSaving s.busyByIdeaId idea.id false }

/-- Success of the post-save refresh (lines 163-166) followed by `onSave`'s
`finally`: replace the projection wholesale, mark it successful, clear the
saving flag of the record whose save triggered the refresh. -/
def refreshResolve (s : AppState) (id : String) (resp : ListResp) : AppState :=
  { s with savedIdeas := listItems resp, savedStatus := .success,
           pendingRefresh := eraseOnce s.pendingRefresh id,
           busyByIdeaId := setSaving s.busyByIdeaId id false }

/-- Failure of the post-save refresh: the `catch \x7b\x7d` ignores it
entirely — projection, status and error are all left untouched; only the
`finally` clears the saving flag. -/
def refreshReject (s : AppState) (id : String) : AppState :=
  { s with pendingRefresh := eraseOnce s.pendingRefresh id,
           busyByIdeaId := setSaving s.busyByIdeaId id false }

/-- Success of the initial saved-ideas load (lines 57-64). -/
def loadResolve (s : AppState) (resp : ListResp) : AppState :=
  { s with savedIdeas := listItems resp, savedStatus := .success,
           pendingLoad := false }

/-- Failure of the initial saved-ideas load (lines 65-69). -/
def loadReject (s : AppState) (emsg : Option String) : AppState :=
  { s with savedStatus := .error,
           savedError := jsOrStr emsg "Failed to load saved ideas.",
           pendingLoad := false }

/-! ## onShare (lines 178-203) -/

/-- The part of `onShare` before `await shareIdea(...)`: the `if (!id)` guard
fails locally without any network call when the record has no truthy
`savedId`; otherwise clear the error, set the sharing flag and issue the
request (whose payload is the saved id). -/
def onShareStart (s : AppState) (idea : IdeaRec) : AppState × Option String :=
  match truthyOpt idea.savedId with
  | none =>
    ({ s with errorByIdeaId := updMap s.errorByIdeaId idea.id "Save the idea before sharing." },
     none)
  | some sid =>
    ({ s with errorByIdeaId := updMap s.errorByIdeaId idea.id "",
              busyByIdeaId := setSharing s.busyByIdeaId idea.id true,
              pendingShares := s.pendingShares ++ [(idea, sid)] }, some sid)

/-- Success continuation of `onShare`: probe the URL fields; a falsy URL
throws, landing in the catch.  Returns the new state and the text copied to
the clipboard, if any.  Includes the `finally`. -/
def onShareResolve (s : AppState) (idea : IdeaRec) (sid : String) (d : ShareResp) :
    AppState × Option String :=
  match firstTruthyS [d.url, d.share_url, d.shareUrl, d.link] with
  | some u =>
    ({ s with notice := some { kind := "success", message := "Share link copied to clipboard." },
              pendingShares := eraseOnce s.pendingShares (idea, sid),
              busyByIdeaId := setSharing s.busyByIdeaId idea.id false }, some u)
  | none =>
    ({ s with errorByIdeaId := updMap s.errorByIdeaId idea.id "Backend did not return a share URL.",
              notice := some { kind := "error", message := "Share failed." },
              pendingShares := eraseOnce s.pendingShares (idea, sid),
              busyByIdeaId := setSharing s.busyByIdeaId idea.id false }, none)

/-- Failure continuation of `onShare` plus its `finally`. -/
def onShareReject (s : AppState) (idea : IdeaRec) (sid : String)
    (emsg : Option String) : AppState :=
  { s with errorByIdeaId := updMap s.errorByIdeaId idea.id (jsOrStr emsg "Failed to share."),
           notice := some { kind := "error", message := "Share failed." },
           pendingShares := eraseOnce s.pendingShares (idea, sid),
           busyByIdeaId := setSharing s.busyByIdeaId idea.id false }

/-! ## onExport (lines 205-261) -/

/-- A character of the JS `\w` class: ASCII letters, digits, underscore. -/
def isWordChar (c : Char) : Bool := c.isAlphanum || c == '_'

/-- A character surviving `replace(/[^\w\- ]+/g, "")`. -/
def keepChar (c : Char) : Bool := isWordChar c || c == '-' || c == ' '

/-- `(topic.trim() || "idea").slice(0, 40).replace(/[^\w\- ]+/g, "").trim()
|| "idea"`: the filename base derived from the topic for client-side export
of an unsaved record. -/
def sanitizeTopic (t : String) : String :=
  let t1 := jsTrim t
  let t2 := if t1 == "" then "idea" else t1
  let t3 := (t2.toList.take 40).filter keepChar
  let t4 := trimChars t3
  if t4 = [] then "idea" else String.mk t4

/-- Lowercase hex digit, as used by `JSON.stringify` control escapes. -/
def hexDigit (n : Nat) : Char :=
  if n < 10 then Char.ofNat (48 + n) else Char.ofNat (87 + n)

/-- `JSON.stringify` escaping of a single character. -/
def jsonEscapeChar (c : Char) : List Char :=
  if c = Char.ofNat 34 then [Char.ofNat 92, Char.ofNat 34]
  else if c = Char.ofNat 92 then [Char.ofNat 92, Char.ofNat 92]
  else if c = Char.ofNat 10 then [Char.ofNat 92, 'n']
  else if c = Char.ofNat 9 then [Char.ofNat 92, 't']
  else if c = Char.ofNat 13 then [Char.ofNat 92, 'r']
  else if c = Char.ofNat 8 then [Char.ofNat 92, 'b']
  else if c = Char.ofNat 12 then [Char.ofNat 92, 'f']
  else if c.toNat < 32 then
    [Char.ofNat 92, 'u', '0', '0', hexDigit (c.toNat / 16), hexDigit (c.toNat % 16)]
  else [c]

/-- `JSON.stringify` of a string value. -/
def jsonStr (s : String) : String :=
  "\"" ++ String.mk (s.toList.map jsonEscapeChar).flatten ++ "\""

/-- `JSON.stringify(\x7b topic: topic.trim(), idea: idea.text \x7d, null, 2)`:
the content of a client-side JSON export. -/
def jsonTopicIdea (t i : String) : String :=
  "\x7b\n  \"topic\": " ++ jsonStr t ++ ",\n  \"idea\": " ++ jsonStr i ++ "\n\x7d"

/-- A remote export response: raw string body, an object whose probed fields
are modelled, a null body, or anything else opaque. -/
inductive ExportResp where
  | str (s : String)
  | obj (content data filename mimeType : Option String)
  | nul
deriving DecidableEq, Repr

/-- `JSON.stringify(data, null, 2)` for the modelled export response
(present fields rendered in insertion order with 2-space indent). -/
def stringifyExportResp : ExportResp → String
  | .str s => jsonStr s
  | .nul => "null"
  | .obj c d f m =>
    let fields := ([("content", c), ("data", d), ("filename", f), ("mimeType", m)]).filterMap
      (fun p => p.2.map (fun v => "  " ++ jsonStr p.1 ++ ": " ++ jsonStr v))
    if fields = [] then "\x7b\x7d"
    else "\x7b\n" ++ String.intercalate ",\n" fields ++ "\n\x7d"

/-- `(typeof data === "string" ? data : null) || data?.content || data?.data
|| JSON.stringify(data, null, 2)`. -/
def exportContent (d : ExportResp) : String :=
  let rawStr : Option String := match d with | .str s => some s | _ => none
  let contentF : Option String := match d with | .obj c _ _ _ => c | _ => none
  let dataF : Option String := match d with | .obj _ dd _ _ => dd | _ => none
  jsOrStr (firstTruthyS [rawStr, contentF, dataF]) (stringifyExportResp d)

/-- `data?.filename || idea-ID.EXT` with the extension derived from the
requested format. -/
def exportFilename (d : ExportResp) (format sid : String) : String :=
  let ext := if format == "md" then "md" else if format == "txt" then "txt" else "json"
  let fnF : Option String := match d with | .obj _ _ f _ => f | _ => none
  jsOrStr fnF ("idea-" ++ sid ++ "." ++ ext)

/-- `data?.mimeType || (format === "json" ? ... : ...)`. -/
def exportMime (d : ExportResp) (format : String) : String :=
  let mF : Option String := match d with | .obj _ _ _ m => m | _ => none
  jsOrStr mF (if format == "json" then "application/json;charset=utf-8"
              else "text/plain;charset=utf-8")

/-- The part of `onExport` before any await.  For an unsaved record (no
truthy `savedId`) the export is resolved purely client-side: `txt` and
`json` trigger a download built from the sanitized topic and the last six
characters of the local id; any other format fails locally.  For a saved
record a remote export request `(savedId, format)` is issued.  Returns the
new state, the client-side download (if any) and the remote request (if
any). -/
def onExportStart (s : AppState) (idea : IdeaRec) (format : String) :
    AppState × Option DLFile × Option (String × String) :=
  match truthyOpt idea.savedId with
  | none =>
    let base := sanitizeTopic s.topic ++ "-" ++ lastChars 6 idea.id
    if format == "txt" then
      ({ s with notice := some { kind := "success", message := "Exported as .txt" } },
       some { filename := base ++ ".txt", content := idea.text,
              mimeType := "text/plain;charset=utf-8" }, none)
    else if format == "json" then
      ({ s with notice := some { kind := "success", message := "Exported as .json" } },
       some { filename := base ++ ".json",
              content := jsonTopicIdea (jsTrim s.topic) idea.text,
              mimeType := "application/json;charset=utf-8" }, none)
    else
      ({ s with errorByIdeaId :=
           updMap s.errorByIdeaId idea.id "Save the idea before exporting in this format." },
       none, none)
  | some sid =>
    ({ s with errorByIdeaId := updMap s.errorByIdeaId idea.id "",
              busyByIdeaId := setExporting s.busyByIdeaId idea.id true,
              pendingExports := s.pendingExports ++ [(idea, format)] }, none, some (sid, format))

/-- Success continuation of a remote export plus the `finally`: interpret the
response flexibly and trigger the download. -/
def onExportResolve (s : AppState) (idea : IdeaRec) (format sid : String)
    (d : ExportResp) : AppState × DLFile :=
  ({ s with notice := some { kind := "success", message := "Exported " ++ format.toUpper ++ "." },
            pendingExports := eraseOnce s.pendingExports (idea, format),
            busyByIdeaId := setExporting s.busyByIdeaId idea.id false },
   { filename := exportFilename d format sid, content := exportContent d,
     mimeType := exportMime d format })

/-- Failure continuation of a remote export plus the `finally`. -/
def onExportReject (s : AppState) (idea : IdeaRec) (format : String)
    (emsg : Option String) : AppState :=
  { s with errorByIdeaId := updMap s.errorByIdeaId idea.id (jsOrStr emsg "Failed to export."),
           notice := some { kind := "error", message := "Export failed." },
           pendingExports := eraseOnce s.pendingExports (idea, format),
           busyByIdeaId := setExporting s.busyByIdeaId idea.id false }

/-! ## Transport error construction (api client, `request` lines 64-74) -/

/-- The parsed body of a non-2xx response as `safeParseBody` yields it:
`null` for an empty body, a string when JSON parsing failed (or parsed to a
string), an object (whose probed `detail` / `message` fields are modelled),
or some other JSON value (number, boolean, array — all of which lack those
fields). -/
inductive BodyVal where
  | nil
  | str (s : String)
  | obj (detail message : Option String)
  | other
deriving DecidableEq, Repr

/-- The structured error thrown on a non-2xx status: `err.message`,
`err.status`, `err.body`. -/
structure RequestError where
  message : String
  status : Nat
  body : BodyVal
deriving DecidableEq, Repr

/-- Lines 66-74 of the api client: `message = (body && typeof body ===
"object" && (body.detail || body.message)) || (typeof body === "string" ?
body : null) || "Request failed with status N"`, attached to an error
carrying the status and the parsed body. -/
def mkRequestError (status : Nat) (body : BodyVal) : RequestError :=
  let structured : Option String := match body with
    | .obj d m => firstTruthyS [d, m]
    | _ => none
  let rawText : Option String := match body with
    | .str s => some s
    | _ => none
  { message := jsOrStr (firstTruthyS [structured, rawText])
      ("Request failed with status " ++ toString status),
    status := status, body := body }

/-- Modelled from the spec: the message preference as the claim words it — a
non-empty structured `detail` field first, then a non-empty `message` field,
then the raw text body when the body is a (non-empty) string, then the
generic status string. -/
def messageSpec (status : Nat) (body : BodyVal) : String :=
  let generic := "Request failed with status " ++ toString status
  match body with
  | .obj (some d) m =>
    if d == "" then
      match m with
      | some msg => if msg == "" then generic else msg
      | none => generic
    else d
  | .obj none (some msg) => if msg == "" then generic else msg
  | .obj none none => generic
  | .str s => if s == "" then generic else s
  | .nil => generic
  | .other => generic

/-! ## Event semantics

One step is either a user interaction honoured by the rendered controls
(clicks only fire on enabled controls, and the render disables each action
button from the corresponding busy flag, line 420/430/441/449; the Generate
button from `canGenerate`, line 353) or the settlement of one in-flight
request.  A settlement consumes a matching pending entry.  This is the
single-threaded cooperative scheduling of the source: each continuation runs
atomically between awaits. -/

/-- Line 77: `topic.trim().length >= 3 && generationStatus !== "loading"`. -/
def canGenerate (s : AppState) : Prop :=
  3 ≤ (jsTrim s.topic).length ∧ s.generationStatus ≠ .loading

/-- The tones offered by the tone select control (lines 328-333). -/
def toneOptions : List String :=
  ["Creative", "Practical", "Technical", "Marketing", "Friendly", "Professional"]

/-- One atomic step of the client. -/
inductive Step : AppState → AppState → Prop where
  | setTopic (s : AppState) (t : String) :
      Step s { s with topic := t }
  | setTone (s : AppState) (t : String) : t ∈ toneOptions →
      Step s { s with tone := t }
  | setCount (s : AppState) (n : Nat) : n = 3 ∨ n = 6 ∨ n = 9 ∨ n = 12 →
      Step s { s with count := n }
  | clickGenerate (s : AppState) : canGenerate s →
      Step s (onGenerateStart s).1
  | genResolve (s : AppState) (resp : GenResult) (req : GenReq) :
      req ∈ s.pendingGens → Step s (onGenerateResolve s resp req)
  | genReject (s : AppState) (req : GenReq) (emsg : Option String) :
      req ∈ s.pendingGens → Step s (onGenerateReject s req emsg)
  | clickSave (s : AppState) (idea : IdeaRec) : idea ∈ s.ideas →
      (s.busyByIdeaId idea.id).saving = false →
      Step s (onSaveStart s idea).1
  | saveResolve (s : AppState) (idea : IdeaRec) (req : SaveReq) (d : SaveResp)
      (now : String) : (idea, req) ∈ s.pendingSaves →
      Step s (onSaveResolve s idea d now req)
  | saveReject (s : AppState) (idea : IdeaRec) (req : SaveReq) (emsg : Option String) :
      (idea, req) ∈ s.pendingSaves →
      Step s (onSaveReject s idea req emsg)
  | refreshOk (s : AppState) (id : String) (resp : ListResp) :
      id ∈ s.pendingRefresh → Step s (refreshResolve s id resp)
  | refreshErr (s : AppState) (id : String) :
      id ∈ s.pendingRefresh → Step s (refreshReject s id)
  | loadOk (s : AppState) (resp : ListResp) :
      s.pendingLoad = true → Step s (loadResolve s resp)
  | loadErr (s : AppState) (emsg : Option String) :
      s.pendingLoad = true → Step s (loadReject s emsg)
  | clickShare (s : AppState) (idea : IdeaRec) : idea ∈ s.ideas →
      (s.busyByIdeaId idea.id).sharing = false →
      Step s (onShareStart s idea).1
  | shareOk (s : AppState) (idea : IdeaRec) (sid : String) (d : ShareResp) :
      (idea, sid) ∈ s.pendingShares →
      Step s (onShareResolve s idea sid d).1
  | shareErr (s : AppState) (idea : IdeaRec) (sid : String) (emsg : Option String) :
      (idea, sid) ∈ s.pendingShares →
      Step s (onShareReject s idea sid emsg)
  | clickExport (s : AppState) (idea : IdeaRec) (fmt : String) : idea ∈ s.ideas →
      (s.busyByIdeaId idea.id).exporting = false → (fmt = "txt" ∨ fmt = "json") →
      Step s (onExportStart s idea fmt).1
  | exportOk (s : AppState) (idea : IdeaRec) (fmt sid : String) (d : ExportResp) :
      (idea, fmt) ∈ s.pendingExports →
      Step s (onExportResolve s idea fmt sid d).1
  | exportErr (s : AppState) (idea : IdeaRec) (fmt : String) (emsg : Option String) :
      (idea, fmt) ∈ s.pendingExports →
      Step s (onExportReject s idea fmt emsg)

/-- States reachable from the freshly mounted component. -/
inductive Reachable : AppState → Prop where
  | init : Reachable initState
  | step {s s' : AppState} : Reachable s → Step s s' → Reachable s'

/-- The number of in-flight remote save calls for the record with local id
`id`. -/
def saveInflight (s : AppState) (id : String) : Nat :=
  s.pendingSaves.countP (fun pr => pr.1.id == id)

/-- The number of in-flight post-save refresh calls attributed to `id` (the
saving busy flag stays set until this inner await settles). -/
def refreshInflight (s : AppState) (id : String) : Nat :=
  s.pendingRefresh.countP (fun j => j == id)

/-- Inductive invariant for the save concurrency guard: per record, the save
operation has at most one outstanding remote call (save or its follow-up
refresh), and while one is outstanding the record's saving busy flag — which
disables the Save button — is set. -/
def SaveInv (s : AppState) : Prop :=
  ∀ id : String, saveInflight s id + refreshInflight s id ≤ 1 ∧
    (1 ≤ saveInflight s id + refreshInflight s id → (s.busyByIdeaId id).saving = true)

/-! ## Helper lemmas -/

theorem jsOrStr_ne_empty (o : Option String) (d : String) (hd : d ≠ "") :
    jsOrStr o d ≠ "" := by
  cases o with
  | none => simp only [jsOrStr]; exact hd
  | some s =>
    by_cases hs : s = ""
    · simp only [jsOrStr, hs]
      exact hd
    · simp only [jsOrStr, if_neg (by simp [hs] : ¬((s == "") = true))]
      exact hs

theorem firstTruthyS_ne_empty (l : List (Option String)) (y : String)
    (h : firstTruthyS l = some y) : y ≠ "" := by
  induction l with
  | nil => simp [firstTruthyS] at h
  | cons a rest ih =>
    cases a with
    | none => exact ih (by simpa [firstTruthyS] using h)
    | some s =>
      by_cases hs : s = ""
      · exact ih (by simpa [firstTruthyS, hs] using h)
      · simp [firstTruthyS, hs] at h
        exact h ▸ hs

theorem trimChars_sublist (l : List Char) : List.Sublist (trimChars l) l := by
  have h2 : List.Sublist ((l.dropWhile isWS).reverse.dropWhile isWS).reverse
      (l.dropWhile isWS).reverse.reverse :=
    (List.dropWhile_sublist (l := (l.dropWhile isWS).reverse) isWS).reverse
  rw [List.reverse_reverse] at h2
  exact h2.trans (List.dropWhile_sublist isWS)

theorem sanitize_chain_length (Y : List Char) :
    (trimChars ((Y.take 40).filter keepChar)).length ≤ 40 := by
  have h1 := (trimChars_sublist ((Y.take 40).filter keepChar)).length_le
  have h2 := (List.filter_sublist (l := Y.take 40) (p := keepChar)).length_le
  have h3 : (Y.take 40).length = min 40 Y.length := List.length_take _ _
  omega

theorem sanitize_chain_chars (Y : List Char) :
    ∀ c ∈ trimChars ((Y.take 40).filter keepChar), keepChar c = true := by
  intro c hc
  exact List.of_mem_filter ((trimChars_sublist _).subset hc)

theorem idea_chars : ∀ c ∈ ("idea" : String).toList, keepChar c = true := by
  intro c hc
  have hl : ("idea" : String).toList = ['i', 'd', 'e', 'a'] := rfl
  rw [hl] at hc
  simp only [List.mem_cons, List.not_mem_nil, or_false] at hc
  rcases hc with h | h | h | h <;> subst h <;> decide

theorem sanitizeTopic_length (t : String) : (sanitizeTopic t).length ≤ 40 := by
  simp only [sanitizeTopic]
  split <;> split
  · decide
  · exact sanitize_chain_length _
  · decide
  · exact sanitize_chain_length _

theorem sanitizeTopic_chars (t : String) :
    ∀ c ∈ (sanitizeTopic t).toList, keepChar c = true := by
  simp only [sanitizeTopic]
  split <;> split
  · exact idea_chars
  · exact sanitize_chain_chars _
  · exact idea_chars
  · exact sanitize_chain_chars _

theorem sanitizeTopic_ne_empty (t : String) : sanitizeTopic t ≠ "" := by
  simp only [sanitizeTopic]
  split <;> split
  · decide
  · next h =>
    intro heq
    exact h (congrArg String.toList heq)
  · decide
  · next h =>
    intro heq
    exact h (congrArg String.toList heq)

theorem sanitizeTopic_of_empty (t : String) (h : jsTrim t = "") :
    sanitizeTopic t = "idea" := by
  unfold sanitizeTopic
  rw [h]
  decide

theorem countP_eraseOnce_true {α : Type} [DecidableEq α] (l : List α) (a : α)
    (p : α → Bool) (ha : a ∈ l) (hp : p a = true) :
    (eraseOnce l a).countP p + 1 = l.countP p := by
  induction l with
  | nil => cases ha
  | cons x xs ih =>
    by_cases hx : x = a
    · subst hx
      simp [eraseOnce, List.countP_cons, hp]
    · have hmem : a ∈ xs := by
        cases List.mem_cons.mp ha with
        | inl h => exact absurd h.symm hx
        | inr h => exact h
      simp only [eraseOnce, if_neg hx, List.countP_cons]
      rw [← ih hmem]
      omega

theorem countP_eraseOnce_false {α : Type} [DecidableEq α] (l : List α) (a : α)
    (p : α → Bool) (hp : p a = false) :
    (eraseOnce l a).countP p = l.countP p := by
  induction l with
  | nil => rfl
  | cons x xs ih =>
    by_cases hx : x = a
    · subst hx
      simp [eraseOnce, List.countP_cons, hp]
    · simp only [eraseOnce, if_neg hx, List.countP_cons, ih]

theorem countP_pos_of_mem {α : Type} (l : List α) (a : α) (p : α → Bool)
    (ha : a ∈ l) (hp : p a = true) : 1 ≤ l.countP p := by
  induction l with
  | nil => cases ha
  | cons x xs ih =>
    rw [List.countP_cons]
    cases List.mem_cons.mp ha with
    | inl h => subst h; simp [hp]
    | inr h => have := ih h; omega

theorem updMap_self {α : Type} (m : String → α) (id : String) (v : α) :
    updMap m id v id = v := by simp [updMap]

theorem updMap_other {α : Type} (m : String → α) (id i : String) (v : α)
    (h : i ≠ id) : updMap m id v i = m i := by simp [updMap, h]

theorem setSaving_self (m : String → BusyFlags) (id : String) (v : Bool) :
    (setSaving m id v id).saving = v := by simp [setSaving, updMap]

theorem setSaving_saving (m : String → BusyFlags) (id i : String) (v : Bool)
    (h : i ≠ id) : (setSaving m id v i).saving = (m i).saving := by
  simp [setSaving, updMap, h]

theorem setSharing_saving (m : String → BusyFlags) (id i : String) (v : Bool) :
    (setSharing m id v i).saving = (m i).saving := by
  by_cases h : i = id <;> simp [setSharing, updMap, h]

theorem setExporting_saving (m : String → BusyFlags) (id i : String) (v : Bool) :
    (setExporting m id v i).saving = (m i).saving := by
  by_cases h : i = id <;> simp [setExporting, updMap, h]

/-! ## Preservation of the save-concurrency invariant -/

theorem saveInv_of_frame {s s' : AppState} (hI : SaveInv s)
    (h1 : s'.pendingSaves = s.pendingSaves)
    (h2 : s'.pendingRefresh = s.pendingRefresh)
    (h3 : ∀ i, (s'.busyByIdeaId i).saving = (s.busyByIdeaId i).saving) :
    SaveInv s' := by
  intro id
  have hs : saveInflight s' id = saveInflight s id := by
    unfold saveInflight
    rw [h1]
  have hr : refreshInflight s' id = refreshInflight s id := by
    unfold refreshInflight
    rw [h2]
  rcases hI id with ⟨ha, hb⟩
  constructor
  · rw [hs, hr]
    exact ha
  · intro hge
    rw [h3 id]
    exact hb (by rw [hs, hr] at hge; exact hge)

theorem genStart_frame (s : AppState) :
    (onGenerateStart s).1.pendingSaves = s.pendingSaves ∧
    (onGenerateStart s).1.pendingRefresh = s.pendingRefresh ∧
    ∀ i, ((onGenerateStart s).1.busyByIdeaId i).saving = (s.busyByIdeaId i).saving := by
  simp only [onGenerateStart]
  split <;> simp

theorem shareStart_frame (s : AppState) (idea : IdeaRec) :
    (onShareStart s idea).1.pendingSaves = s.pendingSaves ∧
    (onShareStart s idea).1.pendingRefresh = s.pendingRefresh ∧
    ∀ i, ((onShareStart s idea).1.busyByIdeaId i).saving = (s.busyByIdeaId i).saving := by
  simp only [onShareStart]
  split <;> simp [setSharing_saving]

theorem shareResolve_frame (s : AppState) (idea : IdeaRec) (sid : String) (d : ShareResp) :
    (onShareResolve s idea sid d).1.pendingSaves = s.pendingSaves ∧
    (onShareResolve s idea sid d).1.pendingRefresh = s.pendingRefresh ∧
    ∀ i, ((onShareResolve s idea sid d).1.busyByIdeaId i).saving = (s.busyByIdeaId i).saving := by
  simp only [onShareResolve]
  split <;> simp [setSharing_saving]

theorem exportStart_frame (s : AppState) (idea : IdeaRec) (fmt : String) :
    (onExportStart s idea fmt).1.pendingSaves = s.pendingSaves ∧
    (onExportStart s idea fmt).1.pendingRefresh = s.pendingRefresh ∧
    ∀ i, ((onExportStart s idea fmt).1.busyByIdeaId i).saving = (s.busyByIdeaId i).saving := by
  simp only [onExportStart]
  split
  · split
    · simp
    · split <;> simp
  · simp [setExporting_saving]

theorem saveInv_clickSave (s : AppState) (idea : IdeaRec)
    (hbusy : (s.busyByIdeaId idea.id).saving = false) (hI : SaveInv s) :
    SaveInv (onSaveStart s idea).1 := by
  have hzero : saveInflight s idea.id + refreshInflight s idea.id = 0 := by
    rcases hI idea.id with ⟨ha, hb⟩
    by_contra h
    have h1 : 1 ≤ saveInflight s idea.id + refreshInflight s idea.id := by omega
    simp [hb h1] at hbusy
  unfold saveInflight refreshInflight at hzero
  intro k
  rcases hI k with ⟨ha, hb⟩
  unfold saveInflight refreshInflight at ha hb ⊢
  have e1 : (onSaveStart s idea).1.pendingSaves =
      s.pendingSaves ++ [(idea, { topic := jsTrim s.topic, idea := idea.text })] := rfl
  have e2 : (onSaveStart s idea).1.pendingRefresh = s.pendingRefresh := rfl
  have e3 : (onSaveStart s idea).1.busyByIdeaId = setSaving s.busyByIdeaId idea.id true := rfl
  rw [e1, e2, e3, List.countP_append]
  by_cases hid : k = idea.id
  · rw [hid]
    have hone : List.countP (fun pr : IdeaRec × SaveReq => pr.1.id == idea.id)
        [(idea, { topic := jsTrim s.topic, idea := idea.text })] = 1 := by
      simp [List.countP_cons]
    refine ⟨by omega, fun _ => setSaving_self _ _ _⟩
  · have hpf : (idea.id == k) = false := by
      simp only [beq_eq_false_iff_ne, ne_eq]
      exact fun h => hid h.symm
    have hone : List.countP (fun pr : IdeaRec × SaveReq => pr.1.id == k)
        [(idea, { topic := jsTrim s.topic, idea := idea.text })] = 0 := by
      simp [List.countP_cons, hpf]
    refine ⟨by omega, fun hge => ?_⟩
    rw [setSaving_saving _ _ _ _ hid]
    exact hb (by omega)

theorem saveInv_saveResolve (s : AppState) (idea : IdeaRec) (req : SaveReq)
    (d : SaveResp) (now : String) (hmem : (idea, req) ∈ s.pendingSaves)
    (hI : SaveInv s) : SaveInv (onSaveResolve s idea d now req) := by
  intro k
  rcases hI k with ⟨ha, hb⟩
  unfold saveInflight refreshInflight at ha hb ⊢
  have e1 : (onSaveResolve s idea d now req).pendingSaves =
      eraseOnce s.pendingSaves (idea, req) := rfl
  have e2 : (onSaveResolve s idea d now req).pendingRefresh =
      s.pendingRefresh ++ [idea.id] := rfl
  have e3 : (onSaveResolve s idea d now req).busyByIdeaId = s.busyByIdeaId := rfl
  rw [e1, e2, e3, List.countP_append]
  by_cases hid : k = idea.id
  · have hpt : ((fun pr : IdeaRec × SaveReq => pr.1.id == k) (idea, req)) = true := by
      simp [hid]
    have hcs := countP_eraseOnce_true s.pendingSaves (idea, req)
      (fun pr : IdeaRec × SaveReq => pr.1.id == k) hmem hpt
    have hpos := countP_pos_of_mem s.pendingSaves (idea, req)
      (fun pr : IdeaRec × SaveReq => pr.1.id == k) hmem hpt
    have hone : List.countP (fun j : String => j == k) [idea.id] = 1 := by
      simp [List.countP_cons, hid]
    refine ⟨by omega, fun _ => hb (by omega)⟩
  · have hpf : ((fun pr : IdeaRec × SaveReq => pr.1.id == k) (idea, req)) = false := by
      simp only [beq_eq_false_iff_ne, ne_eq]
      exact fun h => hid h.symm
    have hcs := countP_eraseOnce_false s.pendingSaves (idea, req)
      (fun pr : IdeaRec × SaveReq => pr.1.id == k) hpf
    have hzero : List.countP (fun j : String => j == k) [idea.id] = 0 := by
      have hne : (idea.id == k) = false := hpf
      simp [List.countP_cons, hne]
    refine ⟨by omega, fun hge => hb (by omega)⟩

theorem saveInv_saveReject (s : AppState) (idea : IdeaRec) (req : SaveReq)
    (emsg : Option String) (hmem : (idea, req) ∈ s.pendingSaves)
    (hI : SaveInv s) : SaveInv (onSaveReject s idea req emsg) := by
  intro k
  rcases hI k with ⟨ha, hb⟩
  unfold saveInflight refreshInflight at ha hb ⊢
  have e1 : (onSaveReject s idea req emsg).pendingSaves =
      eraseOnce s.pendingSaves (idea, req) := rfl
  have e2 : (onSaveReject s idea req emsg).pendingRefresh = s.pendingRefresh := rfl
  have e3 : (onSaveReject s idea req emsg).busyByIdeaId =
      setSaving s.busyByIdeaId idea.id false := rfl
  rw [e1, e2, e3]
  by_cases hid : k = idea.id
  · have hpt : ((fun pr : IdeaRec × SaveReq => pr.1.id == k) (idea, req)) = true := by
      simp [hid]
    have hcs := countP_eraseOnce_true s.pendingSaves (idea, req)
      (fun pr : IdeaRec × SaveReq => pr.1.id == k) hmem hpt
    have hpos := countP_pos_of_mem s.pendingSaves (idea, req)
      (fun pr : IdeaRec × SaveReq => pr.1.id == k) hmem hpt
    refine ⟨by omega, fun hge => absurd hge (by omega)⟩
  · have hpf : ((fun pr : IdeaRec × SaveReq => pr.1.id == k) (idea, req)) = false := by
      simp only [beq_eq_false_iff_ne, ne_eq]
      exact fun h => hid h.symm
    have hcs := countP_eraseOnce_false s.pendingSaves (idea, req)
      (fun pr : IdeaRec × SaveReq => pr.1.id == k) hpf
    refine ⟨by omega, fun hge => ?_⟩
    rw [setSaving_saving _ _ _ _ hid]
    exact hb (by omega)

theorem saveInv_refresh_generic {s s' : AppState} (id0 : String)
    (hmem : id0 ∈ s.pendingRefresh)
    (h1 : s'.pendingSaves = s.pendingSaves)
    (h2 : s'.pendingRefresh = eraseOnce s.pendingRefresh id0)
    (h3 : s'.busyByIdeaId = setSaving s.busyByIdeaId id0 false)
    (hI : SaveInv s) : SaveInv s' := by
  intro k
  rcases hI k with ⟨ha, hb⟩
  unfold saveInflight refreshInflight at ha hb ⊢
  rw [h1, h2, h3]
  by_cases hid : k = id0
  · have hpt : ((fun j : String => j == k) id0) = true := by simp [hid]
    have hcs := countP_eraseOnce_true s.pendingRefresh id0
      (fun j : String => j == k) hmem hpt
    have hpos := countP_pos_of_mem s.pendingRefresh id0
      (fun j : String => j == k) hmem hpt
    refine ⟨by omega, fun hge => absurd hge (by omega)⟩
  · have hpf : ((fun j : String => j == k) id0) = false := by
      simp only [beq_eq_false_iff_ne, ne_eq]
      exact fun h => hid h.symm
    have hcs := countP_eraseOnce_false s.pendingRefresh id0
      (fun j : String => j == k) hpf
    refine ⟨by omega, fun hge => ?_⟩
    rw [setSaving_saving _ _ _ _ (fun h => hid h)]
    exact hb (by omega)

theorem step_saveInv {s s' : AppState} (h : Step s s') (hI : SaveInv s) : SaveInv s' := by
  cases h with
  | setTopic t => exact saveInv_of_frame hI rfl rfl (fun i => rfl)
  | setTone t ht => exact saveInv_of_frame hI rfl rfl (fun i => rfl)
  | setCount n hn => exact saveInv_of_frame hI rfl rfl (fun i => rfl)
  | clickGenerate hc =>
    rcases genStart_frame s with ⟨a, b, c⟩
    exact saveInv_of_frame hI a b c
  | genResolve resp req hmem => exact saveInv_of_frame hI rfl rfl (fun i => rfl)
  | genReject req emsg hmem => exact saveInv_of_frame hI rfl rfl (fun i => rfl)
  | clickSave idea hmem hbusy => exact saveInv_clickSave s idea hbusy hI
  | saveResolve idea req d now hmem => exact saveInv_saveResolve s idea req d now hmem hI
  | saveReject idea req emsg hmem => exact saveInv_saveReject s idea req emsg hmem hI
  | refreshOk id resp hmem => exact saveInv_refresh_generic id hmem rfl rfl rfl hI
  | refreshErr id hmem => exact saveInv_refresh_generic id hmem rfl rfl rfl hI
  | loadOk resp hp => exact saveInv_of_frame hI rfl rfl (fun i => rfl)
  | loadErr emsg hp => exact saveInv_of_frame hI rfl rfl (fun i => rfl)
  | clickShare idea hmem hb =>
    rcases shareStart_frame s idea with ⟨a, b, c⟩
    exact saveInv_of_frame hI a b c
  | shareOk idea sid d hmem =>
    rcases shareResolve_frame s idea sid d with ⟨a, b, c⟩
    exact saveInv_of_frame hI a b c
  | shareErr idea sid emsg hmem =>
    exact saveInv_of_frame hI rfl rfl (fun i => setSharing_saving _ _ _ _)
  | clickExport idea fmt hmem hb hf =>
    rcases exportStart_frame s idea fmt with ⟨a, b, c⟩
    exact saveInv_of_frame hI a b c
  | exportOk idea fmt sid d hmem =>
    exact saveInv_of_frame hI rfl rfl (fun i => setExporting_saving _ _ _ _)
  | exportErr idea fmt emsg hmem =>
    exact saveInv_of_frame hI rfl rfl (fun i => setExporting_saving _ _ _ _)

theorem reachable_saveInv {s : AppState} (h : Reachable s) : SaveInv s := by
  induction h with
  | init =>
    intro id
    constructor
    · simp [saveInflight, refreshInflight, initState]
    · intro hge
      simp [saveInflight, refreshInflight, initState] at hge
  | step hr hs ih => exact step_saveInv hs ih

/-! ## Claims -/

/-- Fixture for C1: the state at the first Generate click (topic "abc"). -/
def c1state1 : AppState := { initState with topic := "abc" }

/-- Fixture for C1: the state when the second Generate is issued — the first
call is still in flight and the topic was edited to "abcd". -/
def c1state2 : AppState := { (onGenerateStart c1state1).1 with topic := "abcd" }

/-- Fixture for C1: the request issued by the first Generate call. -/
def c1req : GenReq := { topic := "abc", tone := "Creative", count := 6 }

/-- Claim C1, checked against the code: the source has no generation counter
and `onGenerate` applies whichever response arrives, so when a second
Generate is issued while the first is in flight and the first (stale)
response `["stale"]` arrives last, it is applied: the collection becomes the
stale batch and the status becomes success, contradicting the claim that the
stale response is discarded. -/
theorem C1_stale_generate_response_applied :
    (onGenerateStart c1state1).2 = some c1req ∧
    c1req ∈ (onGenerateStart c1state2).1.pendingGens ∧
    (onGenerateResolve (onGenerateStart c1state2).1 (GenResult.arr [GenItem.str "stale"])
      c1req).ideas.map (fun r => r.text) = ["stale"] ∧
    (onGenerateResolve (onGenerateStart c1state2).1 (GenResult.arr [GenItem.str "stale"])
      c1req).generationStatus = Status.success := by
  decide

/-- Claim C2, counterexample to the claim as stated: the core `onSave`
function performs no busy check, so invoking it twice on the same record
(while the first save is still in flight) issues two concurrent remote save
calls for that record. -/
theorem C2_core_double_save_possible :
    let r : IdeaRec := { id := "local_5", text := "txt" }
    let s0 := { initState with ideas := [r], topic := "T" }
    let s2 := (onSaveStart ((onSaveStart s0 r).1) r).1
    saveInflight s2 "local_5" = 2 := by
  decide

/-- Claim C2 as amended: along every trace of UI-driven events — where the
Save button only fires while the record's saving busy flag is clear, because
the render disables it from that flag — each record has at most one remote
save call in flight. -/
theorem C2_ui_single_inflight_save (s : AppState) (h : Reachable s) (id : String) :
    saveInflight s id ≤ 1 := by
  have hi := (reachable_saveInv h id).1
  omega

/-- Witness for C2: a concrete reachable state (set a topic, click Generate)
at which the theorem applies. -/
theorem C2_ui_single_inflight_save_witness :
    Reachable ((onGenerateStart { initState with topic := "abc" }).1) ∧
    saveInflight ((onGenerateStart { initState with topic := "abc" }).1) "local_0" ≤ 1 := by
  have h1 : Reachable { initState with topic := "abc" } :=
    Reachable.step Reachable.init (Step.setTopic initState "abc")
  have h2 : canGenerate { initState with topic := "abc" } := by
    constructor
    · decide
    · decide
  have h3 : Reachable ((onGenerateStart { initState with topic := "abc" }).1) :=
    Reachable.step h1 (Step.clickGenerate _ h2)
  exact ⟨h3, C2_ui_single_inflight_save _ h3 "local_0"⟩

/-- Claim C3, counterexample to the claim as stated: a record already saved
with remote id `"r1"` is saved again; the (successful) second response
carries id `"r2"`, and the code replaces the record's remote identifier with
`"r2"` — it does change. -/
theorem C3_remote_id_replaced :
    let r : IdeaRec := { id := "local_9", text := "great idea", savedId := some "r1",
                         savedAt := some "2024-01-01" }
    let s0 := { initState with ideas := [r], topic := "Coffee" }
    let s1 := onSaveResolve (onSaveStart s0 r).1 r { id := some "r2" } "2024-01-02"
      (onSaveStart s0 r).2
    s1.ideas.map (fun it => it.savedId) = [some "r2"] ∧ some "r2" ≠ some "r1" := by
  decide

/-- Claim C3 as amended: a second sequential successful Save does not fail
(the record's error is cleared and the success notice is shown) and the
record's identifier is never cleared; it is preserved exactly when the second
response carries no usable identifier, and is replaced by the response's
identifier whenever one is present. -/
theorem C3_second_save_id_policy (s : AppState) (idea : IdeaRec) (d : SaveResp)
    (now : String) (x : String) (hx : idea.savedId = some x) (hxe : x ≠ "") :
    (applySaveToRec d now idea idea).savedId ≠ none ∧
    (savedIdOf d = none → (applySaveToRec d now idea idea).savedId = idea.savedId) ∧
    (∀ y, savedIdOf d = some y → (applySaveToRec d now idea idea).savedId = some y) ∧
    (onSaveResolve (onSaveStart s idea).1 idea d now
        (onSaveStart s idea).2).errorByIdeaId idea.id = "" ∧
    (onSaveResolve (onSaveStart s idea).1 idea d now (onSaveStart s idea).2).notice =
      some { kind := "success", message := "Saved." } := by
  have happ : applySaveToRec d now idea idea =
      { idea with savedId := some (jsOrStr (savedIdOf d) (jsOrStr idea.savedId idea.id)),
                  savedAt := some now } := by
    simp [applySaveToRec]
  refine ⟨?_, ?_, ?_, ?_, rfl⟩
  · rw [happ]
    simp
  · intro h0
    rw [happ, h0, hx]
    simp [jsOrStr, hxe]
  · intro y hy
    have hye : y ≠ "" := firstTruthyS_ne_empty _ _ hy
    rw [happ, hy]
    simp [jsOrStr, hye]
  · exact updMap_self _ _ _

/-- Fixture for the C3 witness: a record already saved with remote id `r1`. -/
def c3idea : IdeaRec :=
  { id := "local_9", text := "great idea", savedId := some "r1",
    savedAt := some "2024-01-01" }

/-- Witness for C3: a concrete already-saved record, a second save response
with no identifier field, applied at the theorem's hypotheses. -/
theorem C3_second_save_id_policy_witness :
    c3idea.savedId = some "r1" ∧ "r1" ≠ "" ∧
    ((applySaveToRec {} "2024-02-02" c3idea c3idea).savedId ≠ none ∧
     (savedIdOf {} = none →
       (applySaveToRec {} "2024-02-02" c3idea c3idea).savedId = c3idea.savedId) ∧
     (∀ y, savedIdOf {} = some y →
       (applySaveToRec {} "2024-02-02" c3idea c3idea).savedId = some y) ∧
     (onSaveResolve (onSaveStart initState c3idea).1 c3idea {} "2024-02-02"
        (onSaveStart initState c3idea).2).errorByIdeaId c3idea.id = "" ∧
     (onSaveResolve (onSaveStart initState c3idea).1 c3idea {} "2024-02-02"
        (onSaveStart initState c3idea).2).notice =
       some { kind := "success", message := "Saved." }) :=
  ⟨rfl, by decide,
   C3_second_save_id_policy initState c3idea {} "2024-02-02" "r1" rfl (by decide)⟩

/-- Claim C4, counterexample to the claim as stated: for the response
`\x7bideas: [], items: [\x7btext: "a"\x7d]\x7d` the code lets the present-but-empty
`ideas` field win (any array is truthy in JS), yielding no records, while the
claimed "first non-empty field wins" policy would yield the record `"a"`. -/
theorem C4_present_empty_field_wins :
    normTexts (GenResult.obj (some []) (some [GenItem.obj (some "a") none])) 6 = [] ∧
    normTextsSpec (GenResult.obj (some []) (some [GenItem.obj (some "a") none])) 6 = ["a"] ∧
    normTexts (GenResult.obj (some []) (some [GenItem.obj (some "a") none])) 6 ≠
      normTextsSpec (GenResult.obj (some []) (some [GenItem.obj (some "a") none])) 6 := by
  decide

/-- Claim C4 as amended: the three example shapes normalize to the identical
two-record result; the first present (truthy) field wins in the fixed
priority order (direct array, `ideas`, `items`) even when that field is an
empty array; items lacking both `text` and `idea` are coerced to the empty
string and filtered out; and for a requested count of at least 1 the result
is truncated to that count (so to `max(1, requestedCount)`). -/
theorem C4_normalizer_policy :
    (∀ c : Nat,
      normTexts (GenResult.arr [GenItem.str "a", GenItem.str "b"]) c =
        normTexts (GenResult.obj (some [GenItem.str "a", GenItem.str "b"]) none) c ∧
      normTexts (GenResult.obj (some [GenItem.str "a", GenItem.str "b"]) none) c =
        normTexts (GenResult.obj none
          (some [GenItem.obj (some "a") none, GenItem.obj (some "b") none])) c) ∧
    normTexts (GenResult.arr [GenItem.str "a", GenItem.str "b"]) 6 = ["a", "b"] ∧
    (∀ (ideasF : List GenItem) (itemsF : Option (List GenItem)),
      pickList (GenResult.obj (some ideasF) itemsF) = ideasF ∧
      pickList (GenResult.obj none itemsF) = itemsF.getD []) ∧
    itemText (GenItem.obj none none) = "" ∧
    (∀ (r : GenResult) (c : Nat), "" ∉ normTexts r c) ∧
    (∀ (r : GenResult) (c : Nat), 1 ≤ c →
      normTexts r c = (((pickList r).map itemText).filter (fun t => t ≠ "")).take c) := by
  refine ⟨?_, by decide, ?_, by decide, ?_, ?_⟩
  · intro c
    exact ⟨rfl, rfl⟩
  · intro ideasF itemsF
    exact ⟨rfl, rfl⟩
  · intro r c hmem
    have h2 := List.take_subset _ _ hmem
    have h3 := (List.mem_filter.mp h2).2
    simp at h3
  · intro r c hc
    unfold normTexts sliceBound
    have hc0 : ¬(c = 0) := by omega
    have h0 : (if c = 0 then 6 else c) = c := by rw [if_neg hc0]
    rw [h0, Nat.max_eq_right hc]

/-- Witness for C4: the truncation conjunct applied at a concrete response
and count. -/
theorem C4_normalizer_policy_witness :
    1 ≤ 3 ∧
    normTexts (GenResult.arr [GenItem.str "a"]) 3 =
      (((pickList (GenResult.arr [GenItem.str "a"])).map itemText).filter
        (fun t => t ≠ "")).take 3 :=
  ⟨by decide, C4_normalizer_policy.2.2.2.2.2 (GenResult.arr [GenItem.str "a"]) 3 (by decide)⟩

/-- Claim C5: Share on a record without a truthy saved identifier fails
locally — no request is issued, nothing but the record's error message
changes (ideas, busy flags, pending shares and the saved view are untouched),
and the per-record error is set to the not-saved message. -/
theorem C5_share_unsaved_fails_locally (s : AppState) (idea : IdeaRec)
    (h : truthyOpt idea.savedId = none) :
    (onShareStart s idea).2 = none ∧
    (onShareStart s idea).1.ideas = s.ideas ∧
    (onShareStart s idea).1.pendingShares = s.pendingShares ∧
    (onShareStart s idea).1.busyByIdeaId = s.busyByIdeaId ∧
    (onShareStart s idea).1.savedIdeas = s.savedIdeas ∧
    (onShareStart s idea).1.errorByIdeaId idea.id = "Save the idea before sharing." := by
  simp [onShareStart, h, updMap]

/-- Witness for C5: a concrete unsaved record. -/
theorem C5_share_unsaved_fails_locally_witness :
    truthyOpt ({ id := "local_1", text := "t" } : IdeaRec).savedId = none ∧
    ((onShareStart initState { id := "local_1", text := "t" }).2 = none ∧
     (onShareStart initState { id := "local_1", text := "t" }).1.ideas = initState.ideas ∧
     (onShareStart initState { id := "local_1", text := "t" }).1.pendingShares =
       initState.pendingShares ∧
     (onShareStart initState { id := "local_1", text := "t" }).1.busyByIdeaId =
       initState.busyByIdeaId ∧
     (onShareStart initState { id := "local_1", text := "t" }).1.savedIdeas =
       initState.savedIdeas ∧
     (onShareStart initState { id := "local_1", text := "t" }).1.errorByIdeaId
       "local_1" = "Save the idea before sharing.") :=
  ⟨rfl, C5_share_unsaved_fails_locally initState { id := "local_1", text := "t" } rfl⟩

/-- Claim C6: for an unsaved record, export as `txt` triggers a client-side
download whose filename is the sanitized topic, a hyphen, the last six
characters of the local id, and the `.txt` extension, with the record's text
as content and no remote request; the sanitized topic consists only of
word/space/hyphen characters, is at most 40 characters long, is never empty,
and defaults to `"idea"` for an (effectively) empty topic; export as `md`
while unsaved downloads nothing, issues no request, and sets the record's
not-saved error. -/
theorem C6_export_unsaved (s : AppState) (idea : IdeaRec)
    (h : truthyOpt idea.savedId = none) :
    (onExportStart s idea "txt").2.1 =
      some { filename := sanitizeTopic s.topic ++ "-" ++ lastChars 6 idea.id ++ ".txt",
             content := idea.text, mimeType := "text/plain;charset=utf-8" } ∧
    (onExportStart s idea "txt").2.2 = none ∧
    (∀ c ∈ (sanitizeTopic s.topic).toList, keepChar c = true) ∧
    (sanitizeTopic s.topic).length ≤ 40 ∧
    sanitizeTopic s.topic ≠ "" ∧
    (jsTrim s.topic = "" → sanitizeTopic s.topic = "idea") ∧
    (onExportStart s idea "md").2.1 = none ∧
    (onExportStart s idea "md").2.2 = none ∧
    (onExportStart s idea "md").1.errorByIdeaId idea.id =
      "Save the idea before exporting in this format." := by
  have hmd1 : (("md" : String) == "txt") = false := by decide
  have hmd2 : (("md" : String) == "json") = false := by decide
  refine ⟨?_, ?_, sanitizeTopic_chars _, sanitizeTopic_length _, sanitizeTopic_ne_empty _,
    fun he => sanitizeTopic_of_empty _ he, ?_, ?_, ?_⟩
  · simp [onExportStart, h]
  · simp [onExportStart, h]
  · simp [onExportStart, h, hmd1, hmd2]
  · simp [onExportStart, h, hmd1, hmd2]
  · simp [onExportStart, h, hmd1, hmd2, updMap]

/-- Fixture for the C6 witness: an unsaved record with a long local id. -/
def c6idea : IdeaRec := { id := "local_1700000_ab12cd", text := "the idea text" }

/-- Fixture for the C6 witness: a state whose topic needs sanitizing. -/
def c6state : AppState := { initState with topic := "  My Great topic!!  " }

/-- Witness for C6: the theorem applied at the concrete fixtures. -/
theorem C6_export_unsaved_witness :
    truthyOpt c6idea.savedId = none ∧
    ((onExportStart c6state c6idea "txt").2.1 =
      some { filename := sanitizeTopic c6state.topic ++ "-" ++ lastChars 6 c6idea.id
               ++ ".txt",
             content := c6idea.text, mimeType := "text/plain;charset=utf-8" } ∧
     (onExportStart c6state c6idea "txt").2.2 = none ∧
     (∀ c ∈ (sanitizeTopic c6state.topic).toList, keepChar c = true) ∧
     (sanitizeTopic c6state.topic).length ≤ 40 ∧
     sanitizeTopic c6state.topic ≠ "" ∧
     (jsTrim c6state.topic = "" → sanitizeTopic c6state.topic = "idea") ∧
     (onExportStart c6state c6idea "md").2.1 = none ∧
     (onExportStart c6state c6idea "md").2.2 = none ∧
     (onExportStart c6state c6idea "md").1.errorByIdeaId c6idea.id =
       "Save the idea before exporting in this format.") :=
  ⟨rfl, C6_export_unsaved c6state c6idea rfl⟩

/-- Claim C7: when a generate call was actually issued (validation passed)
and the remote call fails, the collection ends up empty (it was cleared when
the call was issued and the failure path does not repopulate it), the status
is error, and a non-empty error message is surfaced. -/
theorem C7_generate_failure_clears (s : AppState) (req : GenReq) (emsg : Option String)
    (h : (onGenerateStart s).2 = some req) :
    (onGenerateReject (onGenerateStart s).1 req emsg).ideas = [] ∧
    (onGenerateReject (onGenerateStart s).1 req emsg).generationStatus = Status.error ∧
    (onGenerateReject (onGenerateStart s).1 req emsg).generationError ≠ "" := by
  by_cases hv : (jsTrim s.topic).length < 3
  · exfalso
    simp [onGenerateStart, hv] at h
  · have e : (onGenerateStart s).1.ideas = [] := by simp [onGenerateStart, hv]
    exact ⟨e, rfl, jsOrStr_ne_empty _ _ (by decide)⟩

/-- Witness for C7: a failing generate on a valid topic. -/
theorem C7_generate_failure_clears_witness :
    (onGenerateStart { initState with topic := "abc" }).2 =
      some { topic := "abc", tone := "Creative", count := 6 } ∧
    ((onGenerateReject (onGenerateStart { initState with topic := "abc" }).1
        { topic := "abc", tone := "Creative", count := 6 } none).ideas = [] ∧
     (onGenerateReject (onGenerateStart { initState with topic := "abc" }).1
        { topic := "abc", tone := "Creative", count := 6 } none).generationStatus =
       Status.error ∧
     (onGenerateReject (onGenerateStart { initState with topic := "abc" }).1
        { topic := "abc", tone := "Creative", count := 6 } none).generationError ≠ "") :=
  ⟨by decide, C7_generate_failure_clears { initState with topic := "abc" }
    { topic := "abc", tone := "Creative", count := 6 } none (by decide)⟩

/-- Claim C8, counterexample to the claim as stated: after a successful save
whose follow-up saved-view refresh fails, the view keeps its previous status
(here success) — it is not marked unavailable (the render shows "Unavailable"
only for the error status), while the projection is intact and the record
stays saved. -/
theorem C8_refresh_failure_view_not_marked :
    let r : IdeaRec := { id := "local_5", text := "txt" }
    let s0 := { initState with savedIdeas := ["existing"],
                               savedStatus := Status.success,
                               ideas := [r], topic := "T" }
    let s2 := refreshReject (onSaveResolve (onSaveStart s0 r).1 r { id := some "srv1" }
      "2024" (onSaveStart s0 r).2) r.id
    s2.savedStatus = Status.success ∧ s2.savedStatus ≠ Status.error ∧
    s2.savedIdeas = ["existing"] ∧
    s2.ideas.map (fun it => it.savedId) = [some "srv1"] := by
  decide

/-- Claim C8 as amended: a refresh failure after a successful save leaves the
saved-view projection, its status and its error message all exactly as they
were (the failure is silently ignored; the view is not marked unavailable),
and the save itself is not rolled back — the record remains saved. -/
theorem C8_refresh_failure_preserves_view (s : AppState) (idea : IdeaRec) (d : SaveResp)
    (now : String) (hmem : idea ∈ s.ideas) :
    (refreshReject (onSaveResolve (onSaveStart s idea).1 idea d now
        (onSaveStart s idea).2) idea.id).savedIdeas = s.savedIdeas ∧
    (refreshReject (onSaveResolve (onSaveStart s idea).1 idea d now
        (onSaveStart s idea).2) idea.id).savedStatus = s.savedStatus ∧
    (refreshReject (onSaveResolve (onSaveStart s idea).1 idea d now
        (onSaveStart s idea).2) idea.id).savedError = s.savedError ∧
    ∃ r2, r2 ∈ (refreshReject (onSaveResolve (onSaveStart s idea).1 idea d now
        (onSaveStart s idea).2) idea.id).ideas ∧ r2.id = idea.id ∧
      r2.savedId ≠ none := by
  refine ⟨rfl, rfl, rfl, applySaveToRec d now idea idea, ?_, ?_, ?_⟩
  · exact List.mem_map_of_mem _ hmem
  · simp [applySaveToRec]
  · simp [applySaveToRec]

/-- Fixture for the C8 witness: an unsaved record in a state with a loaded
saved view. -/
def c8idea : IdeaRec := { id := "local_5", text := "txt" }

/-- Fixture for the C8 witness. -/
def c8state : AppState :=
  { initState with savedIdeas := ["existing"], savedStatus := Status.success,
                   ideas := [c8idea], topic := "T" }

/-- Witness for C8: the theorem applied at the concrete fixtures. -/
theorem C8_refresh_failure_preserves_view_witness :
    c8idea ∈ c8state.ideas ∧
    ((refreshReject (onSaveResolve (onSaveStart c8state c8idea).1 c8idea
        { id := some "srv1" } "2024" (onSaveStart c8state c8idea).2)
        c8idea.id).savedIdeas = c8state.savedIdeas ∧
     (refreshReject (onSaveResolve (onSaveStart c8state c8idea).1 c8idea
        { id := some "srv1" } "2024" (onSaveStart c8state c8idea).2)
        c8idea.id).savedStatus = c8state.savedStatus ∧
     (refreshReject (onSaveResolve (onSaveStart c8state c8idea).1 c8idea
        { id := some "srv1" } "2024" (onSaveStart c8state c8idea).2)
        c8idea.id).savedError = c8state.savedError ∧
     ∃ r2, r2 ∈ (refreshReject (onSaveResolve (onSaveStart c8state c8idea).1 c8idea
        { id := some "srv1" } "2024" (onSaveStart c8state c8idea).2)
        c8idea.id).ideas ∧ r2.id = c8idea.id ∧ r2.savedId ≠ none) :=
  ⟨by decide,
   C8_refresh_failure_preserves_view c8state c8idea { id := some "srv1" } "2024"
     (by decide)⟩

/-- Claim C9: on a non-2xx status, the raised error carries the status and
the parsed body, and its message is chosen by the fixed preference — a
non-empty structured `detail` field, then a non-empty `message` field, then
the raw (non-empty) text body when the body is a string, then the generic
status string. -/
theorem C9_request_error_message_preference (status : Nat) (body : BodyVal) :
    mkRequestError status body =
      { message := messageSpec status body, status := status, body := body } := by
  cases body with
  | nil => rfl
  | other => rfl
  | str s =>
    by_cases hs : s = ""
    · simp [mkRequestError, messageSpec, firstTruthyS, jsOrStr, hs]
    · simp [mkRequestError, messageSpec, firstTruthyS, jsOrStr, hs]
  | obj d m =>
    cases d with
    | none =>
      cases m with
      | none => rfl
      | some msg =>
        by_cases hm : msg = "" <;>
          simp [mkRequestError, messageSpec, firstTruthyS, jsOrStr, hm]
    | some dv =>
      by_cases hd : dv = ""
      · cases m with
        | none => simp [mkRequestError, messageSpec, firstTruthyS, jsOrStr, hd]
        | some msg =>
          by_cases hm : msg = "" <;>
            simp [mkRequestError, messageSpec, firstTruthyS, jsOrStr, hd, hm]
      · simp [mkRequestError, messageSpec, firstTruthyS, jsOrStr, hd]

/-- Claim C10: the save request's topic is the live trimmed topic at the
moment Save is invoked — after generating with topic `t1` and then editing
the topic field to `t2`, saving any generated record sends `t2` trimmed (the
records carry no topic of their own). -/
theorem C10_save_uses_live_topic (s : AppState) (t1 t2 : String) (resp : GenResult)
    (idea : IdeaRec) (h1 : 3 ≤ (jsTrim t1).length)
    (h2 : idea ∈ ({ (onGenerateResolve ((onGenerateStart { s with topic := t1 }).1) resp
        { topic := jsTrim t1, tone := s.tone, count := s.count }) with
        topic := t2 } : AppState).ideas) :
    (onSaveStart ({ (onGenerateResolve ((onGenerateStart { s with topic := t1 }).1) resp
          { topic := jsTrim t1, tone := s.tone, count := s.count }) with
          topic := t2 } : AppState) idea).2 =
      { topic := jsTrim t2, idea := idea.text } ∧
    (onGenerateStart { s with topic := t1 }).2 =
      some { topic := jsTrim t1, tone := s.tone, count := s.count } := by
  constructor
  · rfl
  · have hv : ¬((jsTrim ({ s with topic := t1 } : AppState).topic).length < 3) :=
      Nat.not_lt.mpr h1
    simp [onGenerateStart, hv]

/-- Witness for C10: generate with topic `"abc"`, edit the topic to
`" xy z "`, save the minted record; the request carries the trimmed edited
topic. -/
theorem C10_save_uses_live_topic_witness :
    3 ≤ (jsTrim "abc").length ∧
    ({ id := "local_0", text := "one" } : IdeaRec) ∈
      ({ (onGenerateResolve ((onGenerateStart { initState with topic := "abc" }).1)
          (GenResult.arr [GenItem.str "one"])
          { topic := jsTrim "abc", tone := initState.tone,
            count := initState.count }) with topic := " xy z " } : AppState).ideas ∧
    ((onSaveStart ({ (onGenerateResolve
          ((onGenerateStart { initState with topic := "abc" }).1)
          (GenResult.arr [GenItem.str "one"])
          { topic := jsTrim "abc", tone := initState.tone,
            count := initState.count }) with topic := " xy z " } : AppState)
        { id := "local_0", text := "one" }).2 =
      { topic := jsTrim " xy z ", idea := ({ id := "local_0", text := "one" } :
        IdeaRec).text } ∧
     (onGenerateStart { initState with topic := "abc" }).2 =
      some { topic := jsTrim "abc", tone := initState.tone,
             count := initState.count }) :=
  ⟨by decide, by decide,
   C10_save_uses_live_topic initState "abc" " xy z " (GenResult.arr [GenItem.str "one"])
     { id := "local_0", text := "one" } (by decide) (by decide)⟩

end IdeaGenie
